import Mathlib

/-!
Shallow embedding of the edu backend (Express + Supabase school system):
the JWT middleware (src/middleware/auth.ts), the HOD subject controller
(src/controllers/hodController.ts), the admin assignment/linking
controller and auth controller, together with theorems settling the
spec claims about them.

The external collaborators (the jsonwebtoken library, bcryptjs, and the
Postgres store behind supabase-js) are modelled as ideal components:
tokens are records carrying the secret they were signed with, bcrypt is
an injective tagging function, and each table is a list of rows with
PostgREST .single() / .maybeSingle() modelled as returning a row exactly
when the filtered list is a singleton.
-/

namespace Edu

/-- The six user roles of types.ts (User.role union type). -/
inductive Role : Type
  | admin
  | headmaster
  | hod
  | teacher
  | parent
  | student
  deriving DecidableEq, Repr

/-- String form of a role as stored in the users table. -/
def roleToString : Role → String
  | Role.admin => "admin"
  | Role.headmaster => "headmaster"
  | Role.hod => "hod"
  | Role.teacher => "teacher"
  | Role.parent => "parent"
  | Role.student => "student"

/-- Parse a role string, as the validRoles check in register does. -/
def parseRole : String → Option Role
  | "admin" => some Role.admin
  | "headmaster" => some Role.headmaster
  | "hod" => some Role.hod
  | "teacher" => some Role.teacher
  | "parent" => some Role.parent
  | "student" => some Role.student
  | _ => none

/-- A row of the users table (types.ts User plus the stored columns
password_hash and last_login that select(*) also returns). -/
structure User : Type where
  id : Nat
  email : String
  password_hash : String
  role : Role
  first_name : String
  last_name : String
  phone : Option String
  profile_image : Option String
  is_active : Bool
  last_login : Option Nat
  deriving DecidableEq, Repr

/-- TokenPayload of types.ts: the claims generateToken embeds. -/
structure TokenPayload : Type where
  userId : Nat
  email : String
  role : Role
  deriving DecidableEq, Repr

/-- An issued JWT, modelled as the signed payload plus the issued-at and
expiry timestamps (seconds); sig records the secret used to sign, which
is what an ideal unforgeable signature verifies against. -/
structure Token : Type where
  payload : TokenPayload
  iat : Nat
  exp : Nat
  sig : String
  deriving DecidableEq, Repr

/-- Seven days in seconds: the expiresIn 7d option of generateToken. -/
def sevenDays : Nat := 7 * 24 * 60 * 60

/-- generateToken of auth.ts: embeds userId, email, role and signs with
the server secret, valid for seven days from issuance. -/
def generateToken (secret : String) (now : Nat) (user : User) : Token :=
  { payload := { userId := user.id, email := user.email, role := user.role }
    iat := now
    exp := now + sevenDays
    sig := secret }

/-- jwt.verify as used in authenticateToken: succeeds with the embedded
payload exactly when the signature matches the secret and the clock has
not reached the expiry timestamp (jsonwebtoken rejects when
clockTimestamp is at or past exp); otherwise it throws, which we model
as none. -/
def jwtVerify (secret : String) (now : Nat) (t : Token) : Option TokenPayload :=
  if t.sig = secret ∧ now < t.exp then some t.payload else none

/-- A JSON error body produced by the middleware: the fields that any of
its res.json calls may carry. A field that the middleware does not set
is none; in particular success is none everywhere in auth.ts. -/
structure ErrorBody : Type where
  success : Option Bool
  error : Option String
  required : Option (List Role)
  current : Option Role
  deriving DecidableEq, Repr

/-- A body carrying only an error message, as auth.ts always sends. -/
def plainError (msg : String) : ErrorBody :=
  { success := none, error := some msg, required := none, current := none }

/-- The credential material on an incoming request: no bearer token at
all, a string jwt.verify cannot decode, or a decodable token. -/
inductive Credential : Type
  | missing
  | malformed
  | token (t : Token)
  deriving DecidableEq, Repr

/-- Outcome of authenticateToken: either a response is sent (reject) and
the handler chain stops, or next() runs with the fresh user row attached
to the request. -/
inductive AuthResult : Type
  | reject (status : Nat) (body : ErrorBody)
  | proceed (user : User)
  deriving DecidableEq, Repr

/-- PostgREST .single(): a row exactly when the filtered result set is a
singleton, an error (none) on zero or several rows. .maybeSingle() also
yields a row only in the singleton case (several rows are an error whose
data is null, and the callers here only look at data). -/
def single? {α : Type} (l : List α) : Option α :=
  match l with
  | [x] => some x
  | _ => none

/-- authenticateToken of auth.ts: extract the bearer token (401 when
absent), jwt.verify it (the catch-all maps any throw to 403), re-fetch
the user row by the userId claim (401 when absent), reject inactive
accounts with 403, otherwise attach the fresh row and call next(). -/
def authenticateToken (secret : String) (now : Nat) (users : List User)
    (cred : Credential) : AuthResult :=
  match cred with
  | Credential.missing => AuthResult.reject 401 (plainError "Access token required")
  | Credential.malformed => AuthResult.reject 403 (plainError "Invalid or expired token")
  | Credential.token t =>
    match jwtVerify secret now t with
    | none => AuthResult.reject 403 (plainError "Invalid or expired token")
    | some decoded =>
      match single? (users.filter (fun u => u.id == decoded.userId)) with
      | none => AuthResult.reject 401 (plainError "Invalid token")
      | some user =>
        if user.is_active = false then
          AuthResult.reject 403
            (plainError "Account is not active. Please contact administrator.")
        else
          AuthResult.proceed user

/-- Outcome of the authorizeRoles middleware: send a response or next(). -/
inductive GateResult : Type
  | reject (status : Nat) (body : ErrorBody)
  | next
  deriving DecidableEq, Repr

/-- authorizeRoles of auth.ts: 401 when no resolved user is attached,
403 carrying the required list and the current role when the role is not
in the allow-list, next() otherwise. -/
def authorizeRoles (roles : List Role) (reqUser : Option User) : GateResult :=
  match reqUser with
  | none => GateResult.reject 401 (plainError "Authentication required")
  | some u =>
    if roles.contains u.role then
      GateResult.next
    else
      GateResult.reject 403
        { success := none
          error := some "Access denied. Insufficient permissions."
          required := some roles
          current := some u.role }

/-- The allow-lists the route files declare: router.use level gates of
adminRoutes, headmasterRoutes, hodRoutes, parentRoutes, studentRoutes,
the teacher router, and the per-route gate on POST /register. -/
def declaredRouteGroups : List (String × List Role) :=
  [("adminRoutes", [Role.admin]),
   ("headmasterRoutes", [Role.headmaster]),
   ("hodRoutes", [Role.hod]),
   ("parentRoutes", [Role.parent]),
   ("studentRoutes", [Role.student]),
   ("teacherRoutes", [Role.teacher]),
   ("authRegister", [Role.admin])]

/-- A row of the departments table (the columns the HOD controller
reads: the primary key and the hod_id back-reference). -/
structure Department : Type where
  id : Nat
  hod_id : Nat
  deriving DecidableEq, Repr

/-- A row of the subjects table as the controllers read and write it. -/
structure Subject : Type where
  id : Nat
  name : String
  code : String
  description : Option String
  department_id : Nat
  deriving DecidableEq, Repr

/-- A row of the classes table (only the key matters to the claims). -/
structure ClassRow : Type where
  id : Nat
  name : String
  deriving DecidableEq, Repr

/-- A class_subjects junction row: teacher teaches subject in class. -/
structure ClassSubject : Type where
  id : Nat
  class_id : Nat
  subject_id : Nat
  teacher_id : Nat
  deriving DecidableEq, Repr

/-- A row of the parents table: its own key plus the user reference. -/
structure ParentRow : Type where
  id : Nat
  user_id : Nat
  relationship : Option String
  occupation : Option String
  deriving DecidableEq, Repr

/-- A student_parents junction row. -/
structure StudentParent : Type where
  parent_id : Nat
  student_id : Nat
  deriving DecidableEq, Repr

/-- A row of the academic_levels table. -/
structure AcademicLevel : Type where
  id : Nat
  name : String
  deriving DecidableEq, Repr

/-- A subject_academic_levels junction row, with the is_required flag
(academic_structure_migration.sql, DEFAULT TRUE). -/
structure SubjectLevel : Type where
  academic_level_id : Nat
  subject_id : Nat
  is_required : Bool
  deriving DecidableEq, Repr

/-- A row of the teachers table as register inserts it. -/
structure TeacherRow : Type where
  user_id : Nat
  employee_number : String
  department_id : Option Nat
  deriving DecidableEq, Repr

/-- A row of the students table as register inserts it. -/
structure StudentRow : Type where
  id : Nat
  user_id : Nat
  student_number : String
  class_id : Option Nat
  deriving DecidableEq, Repr

/-- The relational store behind supabase: each table is a list of rows.
nextId supplies fresh primary keys for inserts (the store generates
UUIDs; freshness is all the code relies on). -/
structure Db : Type where
  nextId : Nat
  users : List User
  departments : List Department
  subjects : List Subject
  classes : List ClassRow
  class_subjects : List ClassSubject
  parents : List ParentRow
  student_parents : List StudentParent
  academic_levels : List AcademicLevel
  subject_academic_levels : List SubjectLevel
  teachers : List TeacherRow
  students : List StudentRow
  deriving DecidableEq, Repr

/-- A handler response: res.status(s).json with either a success value
or the structured error body every catch block produces. -/
inductive Resp (α : Type) : Type
  | ok (status : Nat) (val : α)
  | err (status : Nat) (msg : String)
  deriving DecidableEq, Repr

/-- The request body of POST /hod/subjects. The controller destructures
only name, code and description; a department_id a caller may also
submit is carried here to show it is ignored. -/
structure SubjectInput : Type where
  name : String
  code : String
  description : Option String
  department_id : Option Nat
  deriving DecidableEq, Repr

/-- The caller department lookup every HOD handler starts with:
departments filtered by hod_id, read through .single(). -/
def hodDepartment (db : Db) (userId : Nat) : Option Department :=
  single? (db.departments.filter (fun d => d.hod_id == userId))

/-- createSubject of hodController.ts: resolve the caller department
(404 when absent), then insert the subject with department_id taken
from that row — the body department_id is never read. A unique-code
violation (23505) maps to 409; the fresh row is returned with 201. -/
def createSubject (db : Db) (userId : Nat) (body : SubjectInput) :
    Db × Resp Subject :=
  match hodDepartment db userId with
  | none => (db, Resp.err 404 "Department not found")
  | some department =>
    if db.subjects.any (fun s => s.code == body.code) then
      (db, Resp.err 409 "Subject with this code already exists")
    else
      let subj : Subject :=
        { id := db.nextId
          name := body.name
          code := body.code
          description := body.description
          department_id := department.id }
      ({ db with subjects := db.subjects ++ [subj], nextId := db.nextId + 1 },
       Resp.ok 201 subj)

/-- The partial-update object updateSubject builds: name and code are
applied only when truthy (non-empty), description whenever present. -/
def applyUpdates (name code : String) (description : Option String)
    (s : Subject) : Subject :=
  { s with
    name := if name ≠ "" then name else s.name
    code := if code ≠ "" then code else s.code
    description :=
      match description with
      | some d => some d
      | none => s.description }

/-- updateSubject of hodController.ts: resolve the caller department
(403 when absent), then update subjects constrained by both the id
parameter and department_id = caller department; .single() on the
returned rows means zero matches surface as a 500 with nothing
written. -/
def updateSubject (db : Db) (userId : Nat) (subjectId : Nat)
    (name code : String) (description : Option String) :
    Db × Resp Subject :=
  match hodDepartment db userId with
  | none => (db, Resp.err 403 "Access denied")
  | some department =>
    let hit := fun (s : Subject) =>
      s.id == subjectId && s.department_id == department.id
    match single? (db.subjects.filter hit) with
    | none => (db, Resp.err 500 "Failed to update subject")
    | some s =>
      let s2 := applyUpdates name code description s
      ({ db with
          subjects := db.subjects.map (fun x => if hit x then s2 else x) },
       Resp.ok 200 s2)

/-- assignTeacherToSubject of the admin controller: require the three
ids (400), verify the user row with role teacher (404 — note the query
filters on role only, not is_active), verify subject and class rows
(404 each), reject an existing identical triple (409), then insert the
junction row and return it with 201. -/
def assignTeacherToSubject (db : Db)
    (teacher_id subject_id class_id : Option Nat) : Db × Resp ClassSubject :=
  match teacher_id, subject_id, class_id with
  | some tid, some sid, some cid =>
    match single? (db.users.filter
        (fun u => u.id == tid && u.role == Role.teacher)) with
    | none => (db, Resp.err 404 "Teacher not found or user is not a teacher")
    | some _ =>
      match single? (db.subjects.filter (fun s => s.id == sid)) with
      | none => (db, Resp.err 404 "Subject not found")
      | some _ =>
        match single? (db.classes.filter (fun c => c.id == cid)) with
        | none => (db, Resp.err 404 "Class not found")
        | some _ =>
          match single? (db.class_subjects.filter (fun r =>
              r.class_id == cid && r.subject_id == sid &&
              r.teacher_id == tid)) with
          | some _ =>
            (db, Resp.err 409
              "This teacher is already assigned to teach this subject in this class")
          | none =>
            let row : ClassSubject :=
              { id := db.nextId, class_id := cid, subject_id := sid,
                teacher_id := tid }
            ({ db with
                class_subjects := db.class_subjects ++ [row],
                nextId := db.nextId + 1 },
             Resp.ok 201 row)
  | _, _, _ =>
    (db, Resp.err 400 "teacher_id, subject_id, and class_id are required")

/-- Whether a list repeats an element: a bulk insert whose batch repeats
a natural key violates the unique constraint just as an existing row
does. -/
def hasDup : List Nat → Bool
  | [] => false
  | x :: xs => xs.contains x || hasDup xs

/-- linkParentToStudents of the admin controller: 400 unless parent_id
and a non-empty student_ids array are present, 404 unless the parents
row resolves, then one bulk insert of all pairs. The store rejects the
whole batch with 23505 when any (parent_id, student_id) pair duplicates
an existing link or another batch element, which the controller maps to
409; otherwise all rows are inserted and returned with 201. -/
def linkParentToStudents (db : Db) (parent_id : Option Nat)
    (student_ids : Option (List Nat)) : Db × Resp (List StudentParent) :=
  match parent_id, student_ids with
  | some pid, some sids =>
    if sids.isEmpty then
      (db, Resp.err 400 "parent_id and student_ids array are required")
    else
      match single? (db.parents.filter (fun p => p.id == pid)) with
      | none => (db, Resp.err 404 "Parent not found")
      | some _ =>
        if sids.any (fun s => db.student_parents.any (fun r =>
            r.parent_id == pid && r.student_id == s)) || hasDup sids then
          (db, Resp.err 409 "One or more students are already linked to this parent")
        else
          let rows := sids.map (fun s => StudentParent.mk pid s)
          ({ db with student_parents := db.student_parents ++ rows },
           Resp.ok 201 rows)
  | _, _ =>
    (db, Resp.err 400 "parent_id and student_ids array are required")

/-- unlinkParentFromStudent of the admin controller: 400 unless both ids
are present, then an unconditional delete filtered on the pair — the
delete reports no error when nothing matches, so the handler answers
success whether or not a link existed. -/
def unlinkParentFromStudent (db : Db)
    (parent_id student_id : Option Nat) : Db × Resp Unit :=
  match parent_id, student_id with
  | some pid, some sid =>
    ({ db with student_parents := db.student_parents.filter (fun r =>
        !(r.parent_id == pid && r.student_id == sid)) },
     Resp.ok 200 ())
  | _, _ => (db, Resp.err 400 "parent_id and student_id are required")

/-- assignSubjectToAcademicLevel of the admin controller: 400 unless
both ids are present, then a direct insert with no existence lookup and
no duplicate pre-check. The store enforces the schema of
academic_structure_migration.sql: a missing endpoint violates a foreign
key (23503), which falls through to the generic 500; a duplicate
(subject_id, academic_level_id) pair raises 23505, mapped to 409.
is_required defaults to true when absent from the body. -/
def assignSubjectToAcademicLevel (db : Db)
    (academic_level_id subject_id : Option Nat) (is_required : Option Bool) :
    Db × Resp SubjectLevel :=
  match academic_level_id, subject_id with
  | some lid, some sid =>
    if !(db.academic_levels.any (fun l => l.id == lid)) ||
       !(db.subjects.any (fun s => s.id == sid)) then
      (db, Resp.err 500 "Failed to assign subject to academic level")
    else if db.subject_academic_levels.any (fun r =>
        r.academic_level_id == lid && r.subject_id == sid) then
      (db, Resp.err 409 "Subject already assigned to this academic level")
    else
      let row : SubjectLevel :=
        { academic_level_id := lid, subject_id := sid,
          is_required := is_required.getD true }
      ({ db with
          subject_academic_levels := db.subject_academic_levels ++ [row] },
       Resp.ok 201 row)
  | _, _ => (db, Resp.err 400 "academic_level_id and subject_id are required")

/-- The JavaScript toLowerCase() on the ASCII emails this system
handles: lowercase applied characterwise. -/
def toLowerStr (s : String) : String :=
  String.mk (s.data.map Char.toLower)

/-- bcrypt.hash modelled as an injective tagging of the password; the
code never inspects the hash except through bcrypt.compare. -/
def bcryptHash (password : String) : String :=
  String.append "$2a$10$" password

/-- bcrypt.compare under the ideal-hash model: the candidate password
matches exactly when its hash is the stored hash. -/
def bcryptCompare (password hash : String) : Bool :=
  bcryptHash password == hash

/-- Placeholder for a JSON null produced by an absent optional column. -/
def optField : Option String → String
  | some s => s
  | none => "null"

/-- The JSON object serialising a full users row, field names paired
with rendered values — this is what res.json would emit for the row
itself, password_hash included. -/
def userFields (u : User) : List (String × String) :=
  [("id", toString u.id),
   ("email", u.email),
   ("password_hash", u.password_hash),
   ("role", roleToString u.role),
   ("first_name", u.first_name),
   ("last_name", u.last_name),
   ("phone", optField u.phone),
   ("profile_image", optField u.profile_image),
   ("is_active", toString u.is_active),
   ("last_login", optField (u.last_login.map toString))]

/-- The rest-spread `const (password_hash, ...userWithoutPassword) = user`
of authController: every field of the row except password_hash. -/
def userWithoutPassword (u : User) : List (String × String) :=
  (userFields u).filter (fun kv => kv.fst ≠ "password_hash")

/-- The success payload of POST /login. -/
structure LoginOut : Type where
  token : Token
  user : List (String × String)
  deriving DecidableEq, Repr

/-- login of authController: 400 on a missing field, look up the row by
lowercased email (401 when absent), bcrypt.compare (401 on mismatch),
403 when inactive, then record last_login, issue a token and answer
with the row stripped of password_hash. -/
def login (db : Db) (secret : String) (now : Nat)
    (email password : String) : Db × Resp LoginOut :=
  if email = "" ∨ password = "" then
    (db, Resp.err 400 "Email and password are required")
  else
    match single? (db.users.filter (fun u => u.email == toLowerStr email)) with
    | none => (db, Resp.err 401 "Invalid email or password")
    | some user =>
      if !(bcryptCompare password user.password_hash) then
        (db, Resp.err 401 "Invalid email or password")
      else if user.is_active = false then
        (db, Resp.err 403 "Your account is not active. Please contact the administrator.")
      else
        let db2 := { db with users := db.users.map (fun u =>
          if u.id == user.id then { u with last_login := some now } else u) }
        (db2, Resp.ok 200
          { token := generateToken secret now user
            user := userWithoutPassword user })

/-- The request body of POST /register (RegisterUserRequest of
types.ts); role arrives as a string and is validated by the handler. -/
structure RegisterBody : Type where
  email : String
  password : String
  role : String
  first_name : String
  last_name : String
  phone : Option String
  department_id : Option Nat
  class_id : Option Nat
  relationship : Option String
  occupation : Option String
  deriving DecidableEq, Repr

/-- The success payload of POST /register. -/
structure RegisterOut : Type where
  user : List (String × String)
  student_id : Option Nat
  parent_id : Option Nat
  deriving DecidableEq, Repr

/-- Delete of the just-created user row, the rollback register performs
when a role-profile insert fails. -/
def rollbackUser (db : Db) (userId : Nat) : Db :=
  { db with users := db.users.filter (fun u => !(u.id == userId)) }

/-- register of authController: admin-only (403), required-field check
(400), role whitelist (400), duplicate-email check (409), insert of the
users row with is_active true, then — for teacher, student and parent —
insert of the role-profile row; when that insert fails the users row is
deleted again and the handler answers 500. profileInsertFails injects
the store failure of the profile insert. On success the response
carries the new row stripped of password_hash plus the fresh student or
parent profile id. -/
def register (db : Db) (caller : Option User) (body : RegisterBody)
    (nowMs : Nat) (profileInsertFails : Bool) : Db × Resp RegisterOut :=
  if !(match caller with
       | some c => c.role == Role.admin
       | none => false) then
    (db, Resp.err 403 "Only administrators can register new users")
  else if body.email = "" ∨ body.password = "" ∨ body.role = "" ∨
      body.first_name = "" ∨ body.last_name = "" then
    (db, Resp.err 400 "Required fields: email, password, role, first_name, last_name")
  else
    match parseRole body.role with
    | none => (db, Resp.err 400 "Invalid role")
    | some role =>
      match single? (db.users.filter
          (fun u => u.email == toLowerStr body.email)) with
      | some _ => (db, Resp.err 409 "User with this email already exists")
      | none =>
        let newUser : User :=
          { id := db.nextId
            email := toLowerStr body.email
            password_hash := bcryptHash body.password
            role := role
            first_name := body.first_name
            last_name := body.last_name
            phone := body.phone
            profile_image := none
            is_active := true
            last_login := none }
        let db1 : Db :=
          { db with users := db.users ++ [newUser], nextId := db.nextId + 1 }
        match role with
        | Role.teacher =>
          if profileInsertFails then
            (rollbackUser db1 newUser.id,
             Resp.err 500 "Failed to create teacher profile")
          else
            ({ db1 with teachers := db1.teachers ++
                [{ user_id := newUser.id
                   employee_number := String.append "TCH" (toString nowMs)
                   department_id := body.department_id }] },
             Resp.ok 201
               { user := userWithoutPassword newUser
                 student_id := none, parent_id := none })
        | Role.student =>
          if profileInsertFails then
            (rollbackUser db1 newUser.id,
             Resp.err 500 "Failed to create student profile")
          else
            let srow : StudentRow :=
              { id := db1.nextId
                user_id := newUser.id
                student_number := String.append "STU" (toString nowMs)
                class_id := body.class_id }
            ({ db1 with
                students := db1.students ++ [srow],
                nextId := db1.nextId + 1 },
             Resp.ok 201
               { user := userWithoutPassword newUser
                 student_id := some srow.id, parent_id := none })
        | Role.parent =>
          if profileInsertFails then
            (rollbackUser db1 newUser.id,
             Resp.err 500 "Failed to create parent profile")
          else
            let prow : ParentRow :=
              { id := db1.nextId
                user_id := newUser.id
                relationship := body.relationship
                occupation := body.occupation }
            ({ db1 with
                parents := db1.parents ++ [prow],
                nextId := db1.nextId + 1 },
             Resp.ok 201
               { user := userWithoutPassword newUser
                 student_id := none, parent_id := some prow.id })
        | _ =>
          (db1, Resp.ok 201
            { user := userWithoutPassword newUser
              student_id := none, parent_id := none })

/-- Projection to the HTTP status of a response. -/
def respStatus {α : Type} : Resp α → Nat
  | Resp.ok s _ => s
  | Resp.err s _ => s

/-- A sample active teacher row used to instantiate theorems. -/
def sampleUser : User :=
  { id := 1
    email := "t@school.org"
    password_hash := "$2a$10$pw"
    role := Role.teacher
    first_name := "Tana"
    last_name := "Moyo"
    phone := none
    profile_image := none
    is_active := true
    last_login := none }

/-- A sample active admin row used to instantiate theorems. -/
def adminUser : User :=
  { sampleUser with id := 2, email := "admin@school.org", role := Role.admin }

/-- A sample deactivated teacher row. -/
def inactiveUser : User :=
  { sampleUser with id := 3, email := "gone@school.org", is_active := false }

/-- Claim C6: verify composed with issue returns exactly the embedded
subject_id, email and role strictly before issued_at plus seven days,
and Invalid from that point on; jwtVerify is a function of only the
token, the secret and the clock. -/
theorem C6_verify_issue_roundtrip (secret : String) (t0 now : Nat) (u : User) :
    (now < t0 + sevenDays →
      jwtVerify secret now (generateToken secret t0 u) =
        some { userId := u.id, email := u.email, role := u.role }) ∧
    (t0 + sevenDays ≤ now →
      jwtVerify secret now (generateToken secret t0 u) = none) := by
  constructor
  · intro h
    simp [jwtVerify, generateToken, h]
  · intro h
    simp [jwtVerify, generateToken]
    omega

/-- Instantiation of C6 one second after issuance and at expiry. -/
theorem C6_verify_issue_roundtrip_witness :
    jwtVerify "k" 1 (generateToken "k" 0 sampleUser) =
      some { userId := sampleUser.id, email := sampleUser.email,
             role := sampleUser.role } ∧
    jwtVerify "k" sevenDays (generateToken "k" 0 sampleUser) = none :=
  ⟨(C6_verify_issue_roundtrip "k" 0 1 sampleUser).1 (by decide),
   (C6_verify_issue_roundtrip "k" 0 sevenDays sampleUser).2 (by decide)⟩

/-- Claim C7: for every declared route group the gate passes exactly the
roles in the allow-list; a denial for role mismatch carries both the
required list and the actual role; with no resolved identity attached
the gate answers 401. -/
theorem C7_role_gate :
    (∀ g u, g ∈ declaredRouteGroups →
      (authorizeRoles g.snd (some u) = GateResult.next ↔ u.role ∈ g.snd)) ∧
    (∀ roles u, u.role ∉ roles →
      authorizeRoles roles (some u) = GateResult.reject 403
        { success := none
          error := some "Access denied. Insufficient permissions."
          required := some roles
          current := some u.role }) ∧
    (∀ roles, authorizeRoles roles none =
      GateResult.reject 401 (plainError "Authentication required")) := by
  refine ⟨fun g u _ => ?_, fun roles u h => ?_, fun roles => rfl⟩
  · by_cases hmem : u.role ∈ g.snd
    · simp [authorizeRoles, hmem]
    · simp [authorizeRoles, hmem]
  · simp [authorizeRoles, h]

/-- Instantiation of C7 on the admin route group: allow for admin, deny
with diagnostics for a teacher, 401 with no identity. -/
theorem C7_role_gate_witness :
    authorizeRoles [Role.admin] (some adminUser) = GateResult.next ∧
    authorizeRoles [Role.admin] (some sampleUser) = GateResult.reject 403
      { success := none
        error := some "Access denied. Insufficient permissions."
        required := some [Role.admin]
        current := some Role.teacher } ∧
    authorizeRoles [Role.admin] none =
      GateResult.reject 401 (plainError "Authentication required") :=
  ⟨(C7_role_gate.1 ("adminRoutes", [Role.admin]) adminUser (by decide)).mpr
      (by decide),
   C7_role_gate.2.1 [Role.admin] sampleUser (by decide),
   C7_role_gate.2.2 [Role.admin]⟩

/-- Claim C1: a request whose token verifies (matching signature,
unexpired) but whose re-fetched user row is inactive is rejected with
403 and the account-disabled message; the result is a reject, so next()
and the route handler never run, whatever payload the token embeds. -/
theorem C1_inactive_account_rejected (secret : String) (now : Nat)
    (users : List User) (t : Token) (u : User)
    (hsig : t.sig = secret) (hexp : now < t.exp)
    (hfetch : single? (users.filter (fun x => x.id == t.payload.userId)) = some u)
    (hinactive : u.is_active = false) :
    authenticateToken secret now users (Credential.token t) =
      AuthResult.reject 403
        (plainError "Account is not active. Please contact administrator.") := by
  simp [authenticateToken, jwtVerify, hsig, hexp, hfetch, hinactive]

/-- Instantiation of C1: a token issued while the account was active is
rejected on the very next request after deactivation. -/
theorem C1_inactive_account_rejected_witness :
    authenticateToken "k" 10 [inactiveUser]
        (Credential.token (generateToken "k" 3 inactiveUser)) =
      AuthResult.reject 403
        (plainError "Account is not active. Please contact administrator.") :=
  C1_inactive_account_rejected "k" 10 [inactiveUser]
    (generateToken "k" 3 inactiveUser) inactiveUser rfl (by decide) (by decide)
    (by decide)

/-- Claim C8 counterexample: on a request with no bearer token the
middleware answers 401 with a body whose only field is the error string;
the body the claim states, with success set to false, is not what is
sent. -/
theorem C8_counterexample :
    authenticateToken "k" 0 [] Credential.missing ≠
      AuthResult.reject 401
        { success := some false
          error := some "Access token required"
          required := none
          current := none } ∧
    authenticateToken "k" 0 [] Credential.missing =
      AuthResult.reject 401
        { success := none
          error := some "Access token required"
          required := none
          current := none } := by
  exact ⟨by decide, rfl⟩

/-- Claim C8 as amended: the statuses and error strings are as claimed,
but the middleware bodies carry no success field — a missing token gives
401 with the access-token-required message, a token jwt.verify rejects
(bad signature, expired, or undecodable) gives 403 with the
invalid-or-expired message, a disabled account gives 403 with the
explanatory message, and a role mismatch gives 403 with the error, the
required list and the current role. -/
theorem C8_error_responses (secret : String) (now : Nat) (users : List User) :
    (authenticateToken secret now users Credential.missing =
      AuthResult.reject 401 (plainError "Access token required")) ∧
    (authenticateToken secret now users Credential.malformed =
      AuthResult.reject 403 (plainError "Invalid or expired token")) ∧
    (∀ t, ¬(t.sig = secret ∧ now < t.exp) →
      authenticateToken secret now users (Credential.token t) =
        AuthResult.reject 403 (plainError "Invalid or expired token")) ∧
    (∀ t u, t.sig = secret → now < t.exp →
      single? (users.filter (fun x => x.id == t.payload.userId)) = some u →
      u.is_active = false →
      authenticateToken secret now users (Credential.token t) =
        AuthResult.reject 403
          (plainError "Account is not active. Please contact administrator.")) ∧
    (∀ roles u, u.role ∉ roles →
      authorizeRoles roles (some u) = GateResult.reject 403
        { success := none
          error := some "Access denied. Insufficient permissions."
          required := some roles
          current := some u.role }) := by
  refine ⟨rfl, rfl, fun t h => ?_, fun t u hsig hexp hfetch hact => ?_,
    fun roles u h => ?_⟩
  · simp [authenticateToken, jwtVerify, h]
  · simp [authenticateToken, jwtVerify, hsig, hexp, hfetch, hact]
  · simp [authorizeRoles, h]

/-- Instantiation of C8 as amended: the four rejection shapes on
concrete requests. -/
theorem C8_error_responses_witness :
    authenticateToken "k" 0 [] Credential.missing =
      AuthResult.reject 401 (plainError "Access token required") ∧
    authenticateToken "k" (2 * sevenDays) []
        (Credential.token (generateToken "k" 0 sampleUser)) =
      AuthResult.reject 403 (plainError "Invalid or expired token") ∧
    authenticateToken "k" 10 [inactiveUser]
        (Credential.token (generateToken "k" 0 inactiveUser)) =
      AuthResult.reject 403
        (plainError "Account is not active. Please contact administrator.") ∧
    authorizeRoles [Role.hod] (some sampleUser) = GateResult.reject 403
      { success := none
        error := some "Access denied. Insufficient permissions."
        required := some [Role.hod]
        current := some Role.teacher } :=
  ⟨(C8_error_responses "k" 0 []).1,
   (C8_error_responses "k" (2 * sevenDays) []).2.2.1
     (generateToken "k" 0 sampleUser) (by decide),
   (C8_error_responses "k" 10 [inactiveUser]).2.2.2.1
     (generateToken "k" 0 inactiveUser) inactiveUser rfl (by decide)
     (by decide) (by decide),
   (C8_error_responses "k" 10 [inactiveUser]).2.2.2.2 [Role.hod] sampleUser
     (by decide)⟩

/-- A store with no rows at all. -/
def emptyDb : Db :=
  { nextId := 1
    users := []
    departments := []
    subjects := []
    classes := []
    class_subjects := []
    parents := []
    student_parents := []
    academic_levels := []
    subject_academic_levels := []
    teachers := []
    students := [] }

/-- Two departments: department 1 headed by user 10, department 2 by
user 20. -/
def hodDb : Db :=
  { emptyDb with nextId := 100, departments := [⟨1, 10⟩, ⟨2, 20⟩] }

/-- The same store with the departments table emptied. -/
def noDeptDb : Db :=
  { hodDb with departments := [] }

/-- A subject body in which the caller also submits department_id 2,
intending the subject for the other department. -/
def crossBody : SubjectInput :=
  { name := "Algebra", code := "MATH1", description := none,
    department_id := some 2 }

/-- A store where the caller heads department 1 but subject 5 belongs
to department 2. -/
def foreignDb : Db :=
  { emptyDb with
    departments := [⟨1, 10⟩]
    subjects := [{ id := 5, name := "Biology", code := "BIO1",
                   description := none, department_id := 2 }] }

/-- Claim C2 counterexample: the HOD of department 1 submits a subject
body carrying department_id 2 — createSubject does not fail with 403 or
404 but answers 201, having written the subject into the caller
department 1; and a caller with no department row is rejected with 404,
not 403. -/
theorem C2_counterexample :
    (createSubject hodDb 10 crossBody).2 =
      Resp.ok 201
        { id := 100, name := "Algebra", code := "MATH1",
          description := none, department_id := 1 } ∧
    respStatus (createSubject hodDb 10 crossBody).2 ≠ 403 ∧
    respStatus (createSubject hodDb 10 crossBody).2 ≠ 404 ∧
    createSubject noDeptDb 10 crossBody =
      (noDeptDb, Resp.err 404 "Department not found") ∧
    respStatus (createSubject noDeptDb 10 crossBody).2 ≠ 403 := by
  decide

/-- Claim C2 as amended: createSubject derives the department solely
from the caller department row — any department in the submitted data
is ignored, so every subject it writes lands in the caller department
(a cross-department request is silently redirected, not rejected);
updateSubject constrains the write by the caller department id, so a
subject of another department is never modified (the call fails with
500); a caller with no department row is rejected, with 404 by
createSubject and 403 by updateSubject. -/
theorem C2_department_scoping (db : Db) (userId : Nat) :
    (∀ body s, s ∈ (createSubject db userId body).1.subjects →
      s ∈ db.subjects ∨
      ∃ d, hodDepartment db userId = some d ∧ s.department_id = d.id) ∧
    (∀ body, hodDepartment db userId = none →
      createSubject db userId body = (db, Resp.err 404 "Department not found")) ∧
    (∀ sid name code dsc, hodDepartment db userId = none →
      updateSubject db userId sid name code dsc =
        (db, Resp.err 403 "Access denied")) ∧
    (∀ sid name code dsc d, hodDepartment db userId = some d →
      (∀ s, s ∈ db.subjects → s.id = sid → s.department_id ≠ d.id) →
      updateSubject db userId sid name code dsc =
        (db, Resp.err 500 "Failed to update subject")) := by
  refine ⟨fun body s hs => ?_, fun body h => ?_, fun sid name code dsc h => ?_,
    fun sid name code dsc d hdep hforeign => ?_⟩
  · rcases hdep : hodDepartment db userId with _ | d
    · simp [createSubject, hdep] at hs
      exact Or.inl hs
    · by_cases hdup : (db.subjects.any (fun x => x.code == body.code)) = true
      · simp [createSubject, hdep, hdup] at hs
        exact Or.inl hs
      · simp [createSubject, hdep, hdup] at hs
        rcases hs with h | h
        · exact Or.inl h
        · subst h
          exact Or.inr ⟨d, rfl, rfl⟩
  · simp [createSubject, h]
  · simp [updateSubject, h]
  · have hfilter :
        db.subjects.filter
          (fun s => s.id == sid && s.department_id == d.id) = [] := by
      rw [List.filter_eq_nil_iff]
      intro s hs
      simp only [Bool.and_eq_true, beq_iff_eq, not_and]
      intro h1 h2
      exact hforeign s hs h1 h2
    simp [updateSubject, hdep, hfilter, single?]

/-- Instantiation of C2 as amended: the missing-department rejection and
the foreign-subject update failure at concrete stores. -/
theorem C2_department_scoping_witness :
    createSubject noDeptDb 10 crossBody =
      (noDeptDb, Resp.err 404 "Department not found") ∧
    updateSubject foreignDb 10 5 "NewName" "" none =
      (foreignDb, Resp.err 500 "Failed to update subject") :=
  ⟨(C2_department_scoping noDeptDb 10).2.1 crossBody (by decide),
   (C2_department_scoping foreignDb 10).2.2.2 5 "NewName" "" none ⟨1, 10⟩
     (by decide) (by decide)⟩

/-- A subject row used by the assignment stores. -/
def chemSubject : Subject :=
  { id := 8, name := "Chemistry", code := "CHE1", description := none,
    department_id := 1 }

/-- A store holding a deactivated teacher (user 7), subject 8 and
class 9, with no assignments yet. -/
def inactiveTeacherDb : Db :=
  { emptyDb with
    nextId := 50
    users := [{ inactiveUser with id := 7 }]
    subjects := [chemSubject]
    classes := [⟨9, "Form 1A"⟩] }

/-- Claim C3 counterexample: teacher_id 7 resolves to a row whose role
is teacher but whose is_active is false — the claim demands 404 with no
insert, yet the call answers 201 and the junction row is inserted: the
query filters on role only and never checks is_active. -/
theorem C3_counterexample :
    (assignTeacherToSubject inactiveTeacherDb (some 7) (some 8) (some 9)).2 =
      Resp.ok 201 { id := 50, class_id := 9, subject_id := 8, teacher_id := 7 } ∧
    respStatus
      (assignTeacherToSubject inactiveTeacherDb (some 7) (some 8) (some 9)).2 ≠
      404 ∧
    (assignTeacherToSubject inactiveTeacherDb (some 7) (some 8) (some 9)).1.class_subjects =
      [{ id := 50, class_id := 9, subject_id := 8, teacher_id := 7 }] ∧
    ({ inactiveUser with id := 7 }).is_active = false := by
  decide

/-- Claim C3 as amended: the call fails with 404 and inserts nothing
whenever teacher_id does not resolve to a user row with role teacher
(is_active is not consulted), or subject_id or class_id do not resolve
to existing rows. -/
theorem C3_notfound_paths (db : Db) (tid sid cid : Nat) :
    (single? (db.users.filter
        (fun u => u.id == tid && u.role == Role.teacher)) = none →
      assignTeacherToSubject db (some tid) (some sid) (some cid) =
        (db, Resp.err 404 "Teacher not found or user is not a teacher")) ∧
    (∀ u, single? (db.users.filter
        (fun x => x.id == tid && x.role == Role.teacher)) = some u →
      single? (db.subjects.filter (fun s => s.id == sid)) = none →
      assignTeacherToSubject db (some tid) (some sid) (some cid) =
        (db, Resp.err 404 "Subject not found")) ∧
    (∀ u s, single? (db.users.filter
        (fun x => x.id == tid && x.role == Role.teacher)) = some u →
      single? (db.subjects.filter (fun x => x.id == sid)) = some s →
      single? (db.classes.filter (fun c => c.id == cid)) = none →
      assignTeacherToSubject db (some tid) (some sid) (some cid) =
        (db, Resp.err 404 "Class not found")) := by
  refine ⟨fun h => ?_, fun u hu h => ?_, fun u s hu hs h => ?_⟩
  · simp [assignTeacherToSubject, h]
  · simp [assignTeacherToSubject, hu, h]
  · simp [assignTeacherToSubject, hu, hs, h]

/-- A store holding only the active teacher row (user 1). -/
def teacherOnlyDb : Db :=
  { emptyDb with users := [sampleUser] }

/-- The same store with subject 8 added and still no classes. -/
def teacherSubjectDb : Db :=
  { teacherOnlyDb with subjects := [chemSubject] }

/-- Instantiation of C3 as amended: the three 404 paths at concrete
stores. -/
theorem C3_notfound_paths_witness :
    assignTeacherToSubject emptyDb (some 1) (some 8) (some 9) =
      (emptyDb, Resp.err 404 "Teacher not found or user is not a teacher") ∧
    assignTeacherToSubject teacherOnlyDb (some 1) (some 8) (some 9) =
      (teacherOnlyDb, Resp.err 404 "Subject not found") ∧
    assignTeacherToSubject teacherSubjectDb (some 1) (some 8) (some 9) =
      (teacherSubjectDb, Resp.err 404 "Class not found") :=
  ⟨(C3_notfound_paths emptyDb 1 8 9).1 (by decide),
   (C3_notfound_paths teacherOnlyDb 1 8 9).2.1 sampleUser (by decide)
     (by decide),
   (C3_notfound_paths teacherSubjectDb 1 8 9).2.2 sampleUser chemSubject
     (by decide) (by decide) (by decide)⟩

/-- Claim C4: linking with an empty student_ids list always fails with
400 whatever parent_id is; unlinking answers success whether or not the
link exists, twice in a row included; and linking a pair that already
exists fails with 409 while the store is left unchanged — the
insert-fails-on-duplicate, delete-succeeds-on-absence asymmetry. -/
theorem C4_link_unlink_asymmetry (db : Db) (pid sid : Nat) (sids : List Nat) :
    (∀ p, linkParentToStudents db p (some []) =
      (db, Resp.err 400 "parent_id and student_ids array are required")) ∧
    ((unlinkParentFromStudent db (some pid) (some sid)).2 = Resp.ok 200 ()) ∧
    ((unlinkParentFromStudent
        (unlinkParentFromStudent db (some pid) (some sid)).1
        (some pid) (some sid)).2 = Resp.ok 200 ()) ∧
    (∀ s parentRow, s ∈ sids →
      StudentParent.mk pid s ∈ db.student_parents →
      single? (db.parents.filter (fun p => p.id == pid)) = some parentRow →
      linkParentToStudents db (some pid) (some sids) =
        (db, Resp.err 409
          "One or more students are already linked to this parent")) := by
  refine ⟨fun p => ?_, rfl, rfl, fun s parentRow hmem hlink hparent => ?_⟩
  · rcases p with _ | pid2 <;> rfl
  · have hne : sids.isEmpty = false := by
      cases sids with
      | nil => cases hmem
      | cons a l => rfl
    have hany : sids.any (fun x => db.student_parents.any (fun r =>
        r.parent_id == pid && r.student_id == x)) = true := by
      rw [List.any_eq_true]
      refine ⟨s, hmem, ?_⟩
      rw [List.any_eq_true]
      exact ⟨StudentParent.mk pid s, hlink, by simp⟩
    simp [linkParentToStudents, hne, hparent, hany]

/-- A store with parent row 4 (user 40) already linked to student 11. -/
def linkedDb : Db :=
  { emptyDb with
    parents := [⟨4, 40, none, none⟩]
    student_parents := [⟨4, 11⟩] }

/-- Instantiation of C4 at a concrete store: empty-list 400 even with a
valid parent, unlink success twice with no link present, duplicate-link
409 leaving the store unchanged. -/
theorem C4_link_unlink_asymmetry_witness :
    linkParentToStudents linkedDb (some 4) (some []) =
      (linkedDb, Resp.err 400 "parent_id and student_ids array are required") ∧
    (unlinkParentFromStudent emptyDb (some 4) (some 11)).2 = Resp.ok 200 () ∧
    (unlinkParentFromStudent
        (unlinkParentFromStudent emptyDb (some 4) (some 11)).1
        (some 4) (some 11)).2 = Resp.ok 200 () ∧
    linkParentToStudents linkedDb (some 4) (some [11]) =
      (linkedDb, Resp.err 409
        "One or more students are already linked to this parent") :=
  ⟨(C4_link_unlink_asymmetry linkedDb 4 11 []).1 (some 4),
   (C4_link_unlink_asymmetry emptyDb 4 11 []).2.1,
   (C4_link_unlink_asymmetry emptyDb 4 11 []).2.2.1,
   (C4_link_unlink_asymmetry linkedDb 4 11 [11]).2.2.2 11 ⟨4, 40, none, none⟩
     (by decide) (by decide) (by decide)⟩

/-- Claim C5 counterexample: with neither academic level 1 nor subject 8
existing, the call does not fail with 404 — the insert hits the foreign
keys and the handler answers the generic 500: there is no
endpoint-existence validation. -/
theorem C5_counterexample :
    assignSubjectToAcademicLevel emptyDb (some 1) (some 8) none =
      (emptyDb, Resp.err 500 "Failed to assign subject to academic level") ∧
    respStatus
      (assignSubjectToAcademicLevel emptyDb (some 1) (some 8) none).2 ≠ 404 := by
  decide

/-- Claim C5 as amended: assignSubjectToAcademicLevel validates only
that the two ids are present (400 otherwise) and then inserts directly,
with no application-level existence or duplicate pre-check: a missing
endpoint surfaces as the store foreign-key failure mapped to the
generic 500 (not 404), a duplicate pair is the store unique violation
mapped to 409, and a fresh pair is inserted with is_required defaulting
to true. -/
theorem C5_direct_insert (db : Db) (lid sid : Nat) (req : Option Bool) :
    (∀ s2, assignSubjectToAcademicLevel db none s2 req =
      (db, Resp.err 400 "academic_level_id and subject_id are required")) ∧
    (assignSubjectToAcademicLevel db (some lid) none req =
      (db, Resp.err 400 "academic_level_id and subject_id are required")) ∧
    ((db.academic_levels.any (fun l => l.id == lid) = false ∨
      db.subjects.any (fun s => s.id == sid) = false) →
      assignSubjectToAcademicLevel db (some lid) (some sid) req =
        (db, Resp.err 500 "Failed to assign subject to academic level")) ∧
    (db.academic_levels.any (fun l => l.id == lid) = true →
      db.subjects.any (fun s => s.id == sid) = true →
      db.subject_academic_levels.any (fun r =>
        r.academic_level_id == lid && r.subject_id == sid) = true →
      assignSubjectToAcademicLevel db (some lid) (some sid) req =
        (db, Resp.err 409 "Subject already assigned to this academic level")) ∧
    (db.academic_levels.any (fun l => l.id == lid) = true →
      db.subjects.any (fun s => s.id == sid) = true →
      db.subject_academic_levels.any (fun r =>
        r.academic_level_id == lid && r.subject_id == sid) = false →
      assignSubjectToAcademicLevel db (some lid) (some sid) req =
        ({ db with subject_academic_levels :=
            db.subject_academic_levels ++ [⟨lid, sid, req.getD true⟩] },
         Resp.ok 201 ⟨lid, sid, req.getD true⟩)) := by
  refine ⟨fun s2 => ?_, rfl, fun h => ?_, fun h1 h2 h3 => ?_,
    fun h1 h2 h3 => ?_⟩
  · cases s2 <;> rfl
  · rcases h with h | h <;> simp [assignSubjectToAcademicLevel, h]
  · simp [assignSubjectToAcademicLevel, h1, h2, h3]
  · simp [assignSubjectToAcademicLevel, h1, h2, h3]

/-- A store holding academic level 1 and subject 8. -/
def levelDb : Db :=
  { emptyDb with
    academic_levels := [⟨1, "Form 1"⟩]
    subjects := [chemSubject] }

/-- Instantiation of C5 as amended: the foreign-key 500 on an empty
store and the fresh insert with is_required defaulting to true. -/
theorem C5_direct_insert_witness :
    assignSubjectToAcademicLevel emptyDb (some 1) (some 8) none =
      (emptyDb, Resp.err 500 "Failed to assign subject to academic level") ∧
    assignSubjectToAcademicLevel levelDb (some 1) (some 8) none =
      ({ levelDb with subject_academic_levels :=
          levelDb.subject_academic_levels ++ [⟨1, 8, true⟩] },
       Resp.ok 201 ⟨1, 8, true⟩) :=
  ⟨(C5_direct_insert emptyDb 1 8 none).2.2.1 (Or.inl (by decide)),
   (C5_direct_insert levelDb 1 8 none).2.2.2.2 (by decide) (by decide)
     (by decide)⟩

/-- The role-profile invariant of the data model: every identity whose
role is teacher, student or parent has a matching row in its profile
table. -/
def rolesMatched (users : List User) (teachers : List TeacherRow)
    (students : List StudentRow) (parents : List ParentRow) : Prop :=
  ∀ u, u ∈ users →
    (u.role = Role.teacher → ∃ t, t ∈ teachers ∧ t.user_id = u.id) ∧
    (u.role = Role.student → ∃ s, s ∈ students ∧ s.user_id = u.id) ∧
    (u.role = Role.parent → ∃ p, p ∈ parents ∧ p.user_id = u.id)

/-- Shrinking the users list preserves the role-profile invariant. -/
lemma rolesMatched_of_subset (users2 users : List User)
    (teachers : List TeacherRow) (students : List StudentRow)
    (parents : List ParentRow)
    (hsub : ∀ x, x ∈ users2 → x ∈ users)
    (h : rolesMatched users teachers students parents) :
    rolesMatched users2 teachers students parents :=
  fun x hx => h x (hsub x hx)

/-- A member of the rolled-back users list was already present before
the registration appended the new row. -/
lemma mem_users_of_rollback (users : List User) (u x : User)
    (hx : x ∈ (users ++ [u]).filter (fun y => !(y.id == u.id))) :
    x ∈ users := by
  simp only [List.mem_filter, List.mem_append, List.mem_singleton] at hx
  rcases hx with ⟨hx1 | hx2, hpred⟩
  · exact hx1
  · subst hx2
    simp at hpred

/-- Appending a teacher identity together with its teachers row
preserves the role-profile invariant. -/
lemma rolesMatched_add_teacher (users : List User)
    (teachers : List TeacherRow) (students : List StudentRow)
    (parents : List ParentRow) (u : User) (t : TeacherRow)
    (hrole : u.role = Role.teacher) (hid : t.user_id = u.id)
    (h : rolesMatched users teachers students parents) :
    rolesMatched (users ++ [u]) (teachers ++ [t]) students parents := by
  intro x hx
  rcases List.mem_append.mp hx with hx | hx
  · obtain ⟨h1, h2, h3⟩ := h x hx
    refine ⟨fun hr => ?_, h2, h3⟩
    obtain ⟨t2, ht2, hid2⟩ := h1 hr
    exact ⟨t2, List.mem_append.mpr (Or.inl ht2), hid2⟩
  · rw [List.mem_singleton] at hx
    subst hx
    refine ⟨fun _ => ⟨t, List.mem_append.mpr (Or.inr (List.mem_singleton.mpr rfl)), hid⟩,
      fun hr => absurd hr (by simp [hrole]),
      fun hr => absurd hr (by simp [hrole])⟩

/-- Appending a student identity together with its students row
preserves the role-profile invariant. -/
lemma rolesMatched_add_student (users : List User)
    (teachers : List TeacherRow) (students : List StudentRow)
    (parents : List ParentRow) (u : User) (s : StudentRow)
    (hrole : u.role = Role.student) (hid : s.user_id = u.id)
    (h : rolesMatched users teachers students parents) :
    rolesMatched (users ++ [u]) teachers (students ++ [s]) parents := by
  intro x hx
  rcases List.mem_append.mp hx with hx | hx
  · obtain ⟨h1, h2, h3⟩ := h x hx
    refine ⟨h1, fun hr => ?_, h3⟩
    obtain ⟨s2, hs2, hid2⟩ := h2 hr
    exact ⟨s2, List.mem_append.mpr (Or.inl hs2), hid2⟩
  · rw [List.mem_singleton] at hx
    subst hx
    exact ⟨fun hr => absurd hr (by simp [hrole]),
      fun _ => ⟨s, List.mem_append.mpr (Or.inr (List.mem_singleton.mpr rfl)), hid⟩,
      fun hr => absurd hr (by simp [hrole])⟩

/-- Appending a parent identity together with its parents row preserves
the role-profile invariant. -/
lemma rolesMatched_add_parent (users : List User)
    (teachers : List TeacherRow) (students : List StudentRow)
    (parents : List ParentRow) (u : User) (p : ParentRow)
    (hrole : u.role = Role.parent) (hid : p.user_id = u.id)
    (h : rolesMatched users teachers students parents) :
    rolesMatched (users ++ [u]) teachers students (parents ++ [p]) := by
  intro x hx
  rcases List.mem_append.mp hx with hx | hx
  · obtain ⟨h1, h2, h3⟩ := h x hx
    refine ⟨h1, h2, fun hr => ?_⟩
    obtain ⟨p2, hp2, hid2⟩ := h3 hr
    exact ⟨p2, List.mem_append.mpr (Or.inl hp2), hid2⟩
  · rw [List.mem_singleton] at hx
    subst hx
    exact ⟨fun hr => absurd hr (by simp [hrole]),
      fun hr => absurd hr (by simp [hrole]),
      fun _ => ⟨p, List.mem_append.mpr (Or.inr (List.mem_singleton.mpr rfl)), hid⟩⟩

/-- Appending an identity of a role without a profile table preserves
the role-profile invariant. -/
lemma rolesMatched_add_plain (users : List User)
    (teachers : List TeacherRow) (students : List StudentRow)
    (parents : List ParentRow) (u : User)
    (h1 : u.role ≠ Role.teacher) (h2 : u.role ≠ Role.student)
    (h3 : u.role ≠ Role.parent)
    (h : rolesMatched users teachers students parents) :
    rolesMatched (users ++ [u]) teachers students parents := by
  intro x hx
  rcases List.mem_append.mp hx with hx | hx
  · exact h x hx
  · rw [List.mem_singleton] at hx
    subst hx
    exact ⟨fun hr => absurd hr h1, fun hr => absurd hr h2, fun hr => absurd hr h3⟩

/-- The store with the fresh-id counter zeroed: two stores are equal
under dropId exactly when every table agrees, the id-generation
artifact aside. -/
def dropId (db : Db) : Db :=
  { db with nextId := 0 }

/-- The 500 message register produces when the profile insert of the
given role fails. -/
def profileFailMsg : Role → String
  | Role.teacher => "Failed to create teacher profile"
  | Role.student => "Failed to create student profile"
  | Role.parent => "Failed to create parent profile"
  | _ => ""

/-- Claim C9: registration keeps the role-profile invariant — a run of
register, successful or failed, never leaves a teacher, student or
parent identity without its matching profile row; and when the profile
insert fails after the users row was created, the users row is deleted
again, every table is back to its prior state, and the handler reports
the 500 profile error. -/
theorem C9_register_atomic :
    (∀ db caller body nowMs fails,
      rolesMatched db.users db.teachers db.students db.parents →
      rolesMatched (register db caller body nowMs fails).1.users
        (register db caller body nowMs fails).1.teachers
        (register db caller body nowMs fails).1.students
        (register db caller body nowMs fails).1.parents) ∧
    (∀ db c body nowMs role,
      c.role = Role.admin →
      body.email ≠ "" → body.password ≠ "" → body.role ≠ "" →
      body.first_name ≠ "" → body.last_name ≠ "" →
      parseRole body.role = some role →
      (role = Role.teacher ∨ role = Role.student ∨ role = Role.parent) →
      single? (db.users.filter (fun u => u.email == toLowerStr body.email)) = none →
      (∀ u, u ∈ db.users → u.id ≠ db.nextId) →
      dropId (register db (some c) body nowMs true).1 = dropId db ∧
      (register db (some c) body nowMs true).2 =
        Resp.err 500 (profileFailMsg role)) := by
  constructor
  · intro db caller body nowMs fails h
    unfold register
    split
    · exact h
    split
    · exact h
    split
    · exact h
    split
    · exact h
    split
    · split
      · exact rolesMatched_of_subset _ _ _ _ _
          (fun x hx => mem_users_of_rollback _ _ x hx) h
      · exact rolesMatched_add_teacher _ _ _ _ _ _ rfl rfl h
    · split
      · exact rolesMatched_of_subset _ _ _ _ _
          (fun x hx => mem_users_of_rollback _ _ x hx) h
      · exact rolesMatched_add_student _ _ _ _ _ _ rfl rfl h
    · split
      · exact rolesMatched_of_subset _ _ _ _ _
          (fun x hx => mem_users_of_rollback _ _ x hx) h
      · exact rolesMatched_add_parent _ _ _ _ _ _ rfl rfl h
    · rename_i hT hS hP
      exact rolesMatched_add_plain _ _ _ _ _ hT hS hP h
  · intro db c body nowMs role hc he hp hr hf hl hparse hrole hemail hfresh
    have hadmin : (c.role == Role.admin) = true := by simp [hc]
    have husers : ∀ uNew : User, uNew.id = db.nextId →
        (db.users ++ [uNew]).filter (fun y => !(y.id == db.nextId)) =
          db.users := by
      intro uNew hid
      rw [List.filter_append]
      have h1 : db.users.filter (fun y => !(y.id == db.nextId)) = db.users := by
        rw [List.filter_eq_self]
        intro a ha
        simp [hfresh a ha]
      have h2 : [uNew].filter (fun y => !(y.id == db.nextId)) = [] := by
        simp [List.filter, hid]
      rw [h1, h2, List.append_nil]
    rcases hrole with h3 | h3 | h3 <;> subst h3 <;>
      simp [register, hadmin, he, hp, hr, hf, hl, hparse, hemail,
        rollbackUser, dropId, profileFailMsg, husers]

/-- A valid registration body for a new teacher. -/
def regBody : RegisterBody :=
  { email := "new@school.org"
    password := "pw12345"
    role := "teacher"
    first_name := "New"
    last_name := "Teacher"
    phone := none
    department_id := none
    class_id := none
    relationship := none
    occupation := none }

/-- Instantiation of C9: a failing teacher-profile insert on an empty
store rolls the users row back and reports the 500. -/
theorem C9_register_atomic_witness :
    dropId (register emptyDb (some adminUser) regBody 0 true).1 =
      dropId emptyDb ∧
    (register emptyDb (some adminUser) regBody 0 true).2 =
      Resp.err 500 (profileFailMsg Role.teacher) :=
  C9_register_atomic.2 emptyDb adminUser regBody 0 Role.teacher (by decide)
    (by decide) (by decide) (by decide) (by decide) (by decide) (by decide)
    (Or.inl rfl) (by decide)
    (by intro u hu; simp [emptyDb] at hu)

/-- The keys of a stripped user object: every column except
password_hash. -/
lemma userWithoutPassword_keys (u : User) :
    (userWithoutPassword u).map Prod.fst =
      ["id", "email", "role", "first_name", "last_name", "phone",
       "profile_image", "is_active", "last_login"] := rfl

/-- The rest-spread strip removes the password_hash key. -/
lemma password_hash_stripped (u : User) :
    "password_hash" ∉ (userWithoutPassword u).map Prod.fst := by
  rw [userWithoutPassword_keys]
  decide

/-- Claim C10: every success response of login and of register carries a
user object with no password_hash field — the stored hash is stripped
before the response is produced. -/
theorem C10_password_hash_never_returned :
    (∀ db secret now email password db2 st out,
      login db secret now email password = (db2, Resp.ok st out) →
      "password_hash" ∉ out.user.map Prod.fst) ∧
    (∀ db caller body nowMs fails db2 st out,
      register db caller body nowMs fails = (db2, Resp.ok st out) →
      "password_hash" ∉ out.user.map Prod.fst) := by
  constructor
  · intro db secret now email password db2 st out h
    unfold login at h
    split at h
    · simp at h
    · split at h
      · simp at h
      · split at h
        · simp at h
        · split at h
          · simp at h
          · simp only [Prod.mk.injEq, Resp.ok.injEq] at h
            obtain ⟨-, -, hout⟩ := h
            subst hout
            exact password_hash_stripped _
  · intro db caller body nowMs fails db2 st out h
    unfold register at h
    split at h
    · simp at h
    split at h
    · simp at h
    split at h
    · simp at h
    split at h
    · simp at h
    split at h
    · split at h
      · simp at h
      · simp only [Prod.mk.injEq, Resp.ok.injEq] at h
        obtain ⟨-, -, hout⟩ := h
        subst hout
        exact password_hash_stripped _
    · split at h
      · simp at h
      · simp only [Prod.mk.injEq, Resp.ok.injEq] at h
        obtain ⟨-, -, hout⟩ := h
        subst hout
        exact password_hash_stripped _
    · split at h
      · simp at h
      · simp only [Prod.mk.injEq, Resp.ok.injEq] at h
        obtain ⟨-, -, hout⟩ := h
        subst hout
        exact password_hash_stripped _
    · simp only [Prod.mk.injEq, Resp.ok.injEq] at h
      obtain ⟨-, -, hout⟩ := h
      subst hout
      exact password_hash_stripped _

/-- A registered active user whose stored hash is the bcrypt of the
password pw123. -/
def c10User : User :=
  { sampleUser with
    email := "login@school.org", password_hash := bcryptHash "pw123" }

/-- A store holding just that user. -/
def c10Db : Db :=
  { emptyDb with users := [c10User] }

/-- The success payload of the concrete login below. -/
def c10Out : LoginOut :=
  { token := generateToken "k" 5 c10User, user := userWithoutPassword c10User }

/-- Instantiation of C10 on a concrete successful login. -/
theorem C10_password_hash_never_returned_witness :
    "password_hash" ∉ c10Out.user.map Prod.fst :=
  C10_password_hash_never_returned.1 c10Db "k" 5 "login@school.org" "pw123"
    (login c10Db "k" 5 "login@school.org" "pw123").1 200 c10Out (by decide)

end Edu
